import Mathlib

/-!
# Verification of the journaling tools' persistence and aggregation layers

Shallow embedding of the Python sources `commit_your_day.py`, `pebbles.py`,
`capsule.py`, `memory_jar.py`, `buddy.py` and `pocket_poet.py`.

Modelling conventions:
* JSON values are modelled by the inductive `Json`.  JSON numbers are
  modelled as integers (the stores only ever serialize integer scores;
  floating-point payloads are outside the modelled input space).  The
  textual layer `json.dumps`/`json.loads` is modelled as the identity on
  `Json` values: a file either fails to read, fails to parse, or holds a
  parsed `Json` root.
* A file is modelled by `FileState`: absent, unreadable (`OSError` on
  read), empty/whitespace-only, syntactically invalid JSON, or a parsed
  root value.
* Effectful inputs (uuid generation, wall-clock timestamps, today's
  date) are passed as explicit arguments.
* Calendar dates are modelled as integer day numbers; the ISO `YYYY-MM-DD`
  strings the code manipulates are ordered and differenced exactly like
  their day numbers, so `today - 1` stands for "yesterday".
* Process-level failure (`sys.exit(1)` / `SystemExit(1)` / a propagated
  exception) is modelled with `Except Nat` carrying the exit code.
-/

-- ---------------------------------------------------------------------------
-- JSON values
-- ---------------------------------------------------------------------------

/-- A parsed JSON value.  Objects are association lists with the lookup
semantics of a Python dict produced by `json.loads` (first match; parsed
objects hold each key once).  Numbers are modelled as integers. -/
inductive Json where
  | null : Json
  | bool (b : Bool) : Json
  | int (n : Int) : Json
  | str (s : String) : Json
  | arr (xs : List Json) : Json
  | obj (kvs : List (String × Json)) : Json

/-- `dict.get(key)`: first binding of `key` in the object fields. -/
def Json.lookup : List (String × Json) → String → Option Json
  | [], _ => none
  | (k, v) :: rest, key => if k = key then some v else Json.lookup rest key

/-- Python `str()` applied to a parsed JSON value.  Exact on the cases the
code exercises (strings, ints, bools, null); `str` of a list or dict is a
`repr`-style rendering which the journaling code never relies on, so it is
modelled by a placeholder rendering. -/
def Json.pyStr : Json → String
  | .null => "None"
  | .bool true => "True"
  | .bool false => "False"
  | .int n => toString n
  | .str s => s
  | .arr _ => "<list>"
  | .obj _ => "<dict>"

-- ---------------------------------------------------------------------------
-- commit_your_day.py: constants and domain model
-- ---------------------------------------------------------------------------

/-- `SCHEMA_VERSION` (commit_your_day.py line 29). -/
def SCHEMA_VERSION : String := "1.0"

/-- `MAX_BACKUPS` (commit_your_day.py line 33). -/
def MAX_BACKUPS : Nat := 3

/-- `MOOD_MIN` (commit_your_day.py line 35). -/
def MOOD_MIN : Int := -2

/-- `MOOD_MAX` (commit_your_day.py line 36). -/
def MOOD_MAX : Int := 2

/-- `MOOD_DEFAULT` (commit_your_day.py line 37). -/
def MOOD_DEFAULT : Int := 0

/-- `ENERGY_MIN` (commit_your_day.py line 38). -/
def ENERGY_MIN : Int := 1

/-- `ENERGY_MAX` (commit_your_day.py line 39). -/
def ENERGY_MAX : Int := 5

/-- `ENERGY_DEFAULT` (commit_your_day.py line 40). -/
def ENERGY_DEFAULT : Int := 3

/-- `LifeCommit` dataclass (commit_your_day.py lines 178-191). -/
structure LifeCommit where
  commit_id : String
  timestamp : String
  commit_date : String
  commit_type : String
  message : String
  scope : String := "life"
  details : String := ""
  tags : List String := []
  mood_score : Int := MOOD_DEFAULT
  energy_score : Int := ENERGY_DEFAULT
deriving DecidableEq, Repr

/-- `LifeCommit.to_dict` (commit_your_day.py lines 193-206). -/
def LifeCommit.toDict (c : LifeCommit) : Json :=
  .obj
    [ ("id", .str c.commit_id)
    , ("timestamp", .str c.timestamp)
    , ("date", .str c.commit_date)
    , ("type", .str c.commit_type)
    , ("scope", .str c.scope)
    , ("message", .str c.message)
    , ("details", .str c.details)
    , ("tags", .arr (c.tags.map .str))
    , ("mood_score", .int c.mood_score)
    , ("energy_score", .int c.energy_score)
    ]

/-- `str(data.get(key, default))` where `default` is a string literal:
missing key yields the default, present key is coerced with `str()`. -/
def strField (kvs : List (String × Json)) (key : String) (dflt : String) : String :=
  match Json.lookup kvs key with
  | some v => v.pyStr
  | none => dflt

/-- `LifeCommit.from_dict` (commit_your_day.py lines 208-235).
Tolerant field coercion: tags only kept when the raw value is a list
(each element coerced with `str()`); mood/energy kept when
`isinstance(raw, (int, float))` — which includes booleans, since
`bool` subclasses `int` in Python, so `int(True) = 1` and
`int(False) = 0` — defaulted otherwise; every scalar field coerced
with `str()`. -/
def LifeCommit.fromDict (kvs : List (String × Json)) : LifeCommit :=
  let tags : List String :=
    match Json.lookup kvs "tags" with
    | some (.arr xs) => xs.map Json.pyStr
    | _ => []
  let mood : Int :=
    match Json.lookup kvs "mood_score" with
    | some (.int n) => n
    | some (.bool b) => if b then 1 else 0
    | some _ => MOOD_DEFAULT
    | none => MOOD_DEFAULT
  let energy : Int :=
    match Json.lookup kvs "energy_score" with
    | some (.int n) => n
    | some (.bool b) => if b then 1 else 0
    | some _ => ENERGY_DEFAULT
    | none => ENERGY_DEFAULT
  { commit_id := strField kvs "id" ""
    timestamp := strField kvs "timestamp" ""
    commit_date := strField kvs "date" ""
    commit_type := strField kvs "type" "feat"
    scope := strField kvs "scope" "life"
    message := strField kvs "message" ""
    details := strField kvs "details" ""
    tags := tags
    mood_score := mood
    energy_score := energy }

/-- `CommitStore` dataclass (commit_your_day.py lines 254-260). -/
structure CommitStore where
  version : String := SCHEMA_VERSION
  created_at : String := ""
  commits : List LifeCommit := []
deriving DecidableEq, Repr

/-- `CommitStore.to_dict` (commit_your_day.py lines 262-268). -/
def CommitStore.toDict (s : CommitStore) : Json :=
  .obj
    [ ("version", .str s.version)
    , ("created_at", .str s.created_at)
    , ("commits", .arr (s.commits.map LifeCommit.toDict))
    ]

/-- `CommitStore.from_dict` (commit_your_day.py lines 270-287): commits are
taken from the `commits` list, keeping only dict entries, in order. -/
def CommitStore.fromDict (kvs : List (String × Json)) : CommitStore :=
  let commits : List LifeCommit :=
    match Json.lookup kvs "commits" with
    | some (.arr xs) =>
        xs.filterMap fun e =>
          match e with
          | .obj ckvs => some (LifeCommit.fromDict ckvs)
          | _ => none
    | _ => []
  { version := strField kvs "version" SCHEMA_VERSION
    created_at := strField kvs "created_at" ""
    commits := commits }

/-- `_new_store` (commit_your_day.py lines 290-294); the current UTC
timestamp is passed in as `now`. -/
def newStore (now : String) : CommitStore :=
  { version := SCHEMA_VERSION, created_at := now, commits := [] }

-- ---------------------------------------------------------------------------
-- Filesystem model
-- ---------------------------------------------------------------------------

/-- The observable content of one stored file: absent, unreadable
(`OSError` when reading), bytes that are not valid UTF-8 (the
`encoding="utf-8"` read raises `UnicodeDecodeError`, a `ValueError`),
empty or whitespace-only, syntactically invalid JSON
(`json.JSONDecodeError`), or a successfully parsed root value. -/
inductive FileState where
  | absent : FileState
  | ioError : FileState
  | badUtf8 : FileState
  | empty : FileState
  | badJson : FileState
  | root (j : Json) : FileState

/-- How a load can fail: `exit code` is a deliberate `sys.exit`/`_die`
(`SystemExit`), while `unicodeError` is an uncaught `UnicodeDecodeError`
propagating out of the loader — none of the loaders' `except` tuples
lists it, so it crashes the command. -/
inductive LoadFailure where
  | exit (code : Nat) : LoadFailure
  | unicodeError : LoadFailure
deriving DecidableEq

/-- A target file together with the temporary-file slot that
`tempfile.mkstemp(dir=path.parent)` creates next to it (same directory,
hence same filesystem).  `none` means the file does not exist; `some s`
is its full byte content. -/
structure FS where
  target : Option String
  tmp : Option String

/-- A single injected failure while the atomic writer runs: an exception
raised during the temp-file write, during `fsync`, or during the final
rename/replace; or no failure at all. -/
inductive Fault where
  | none : Fault
  | atWrite : Fault
  | atFsync : Fault
  | atReplace : Fault
deriving DecidableEq

/-- `_write_atomic_json` (commit_your_day.py lines 310-324) as a state
transition on `FS` with one injected fault.  Steps: `mkstemp` creates an
empty temp file beside the target; the serialized payload is written and
fsynced into it; `tmp_path.replace(path)` atomically renames it onto the
target.  The `except BaseException` handler unlinks the temp file and
re-raises.  Returns the propagated outcome and the resulting file state. -/
def writeAtomicJson (fs : FS) (payload : String) (fault : Fault) :
    Except Unit Unit × FS :=
  match fault with
  | .none => (.ok (), { target := some payload, tmp := none })
  | .atWrite => (.error (), { target := fs.target, tmp := none })
  | .atFsync => (.error (), { target := fs.target, tmp := none })
  | .atReplace => (.error (), { target := fs.target, tmp := none })

/-- `_save` in pebbles.py (lines 135-164) as the same kind of state
transition: `mkstemp` beside the target, write payload (plus a trailing
newline), flush, `os.fsync`, `os.replace`; the `finally` block unlinks
the temp file when `succeeded` is still false and the exception
propagates. -/
def pebblesSave (fs : FS) (payload : String) (fault : Fault) :
    Except Unit Unit × FS :=
  match fault with
  | .none => (.ok (), { target := some (payload ++ "\n"), tmp := none })
  | .atWrite => (.error (), { target := fs.target, tmp := none })
  | .atFsync => (.error (), { target := fs.target, tmp := none })
  | .atReplace => (.error (), { target := fs.target, tmp := none })

/-- A point at which the process is killed outright (no handlers run).
`midWrite k` kills after `k` bytes of the current write call have reached
the file. -/
inductive KillPoint where
  | before : KillPoint
  | afterCreate : KillPoint
  | midWrite (k : Nat) : KillPoint
  | afterWrite : KillPoint
  | done : KillPoint

/-- `_write_atomic_json` under a process kill (no exception handling
runs).  A kill before the rename leaves the temp file behind but the
target untouched; `replace` is atomic, so after it the target holds the
complete payload. -/
def writeAtomicJsonKilled (fs : FS) (payload : String) (kp : KillPoint) : FS :=
  match kp with
  | .before => fs
  | .afterCreate => { target := fs.target, tmp := some "" }
  | .midWrite k => { target := fs.target, tmp := some (payload.take k) }
  | .afterWrite => { target := fs.target, tmp := some payload }
  | .done => { target := some payload, tmp := none }

/-- pebbles `_save` under a process kill; same shape (the payload gains
its trailing newline). -/
def pebblesSaveKilled (fs : FS) (payload : String) (kp : KillPoint) : FS :=
  let full := payload ++ "\n"
  match kp with
  | .before => fs
  | .afterCreate => { target := fs.target, tmp := some "" }
  | .midWrite k => { target := fs.target, tmp := some (full.take k) }
  | .afterWrite => { target := fs.target, tmp := some full }
  | .done => { target := some full, tmp := none }

/-- `save_data` in capsule.py (lines 34-39): a plain
`DATA_FILE.write_text(json.dumps(...) + "\n")`, i.e. open the target with
mode "w" (truncating it) and write the payload directly — no temp file,
no fsync, no rename.  Under a kill the target itself is left truncated
or partially written. -/
def capsuleSaveKilled (fs : FS) (payload : String) (kp : KillPoint) : FS :=
  let full := payload ++ "\n"
  match kp with
  | .before => fs
  | .afterCreate => { target := some "", tmp := fs.tmp }
  | .midWrite k => { target := some (full.take k), tmp := fs.tmp }
  | .afterWrite => { target := some full, tmp := fs.tmp }
  | .done => { target := some full, tmp := fs.tmp }

/-- `save_jar` in memory_jar.py (lines 69-72): `open(JAR_FILE, "w")` then
`json.dump(memories, f, ...)` — direct truncate-and-write on the target,
no temp file, no fsync, no rename. -/
def memJarSaveKilled (fs : FS) (payload : String) (kp : KillPoint) : FS :=
  match kp with
  | .before => fs
  | .afterCreate => { target := some "", tmp := fs.tmp }
  | .midWrite k => { target := some (payload.take k), tmp := fs.tmp }
  | .afterWrite => { target := some payload, tmp := fs.tmp }
  | .done => { target := some payload, tmp := fs.tmp }

-- ---------------------------------------------------------------------------
-- commit_your_day.py: store persistence
-- ---------------------------------------------------------------------------

/-- The primary store file and its three backup generations
(`<file>.bak1` .. `<file>.bak3`). -/
structure StoreFiles where
  primary : FileState
  bak1 : FileState
  bak2 : FileState
  bak3 : FileState

/-- `_rotate_backups` (commit_your_day.py lines 327-334): for generations
2 down to 1, `shutil.move` backup `g` onto `g+1` when it exists (a move
removes its source); then `shutil.copy2` the current target into backup
1 when the target exists. -/
def rotateBackups (f : StoreFiles) : StoreFiles :=
  let f := match f.bak2 with
    | .absent => f
    | s => { f with bak3 := s, bak2 := .absent }
  let f := match f.bak1 with
    | .absent => f
    | s => { f with bak2 := s, bak1 := .absent }
  match f.primary with
  | .absent => f
  | s => { f with bak1 := s }

/-- `_save_store` (commit_your_day.py lines 337-341), success path:
rotate backups, then atomically write `store.to_dict()` to the primary
file. -/
def saveStore (f : StoreFiles) (store : CommitStore) : StoreFiles :=
  let f := rotateBackups f
  { f with primary := .root store.toDict }

/-- The outcome of `_load_store`: the returned store, which candidate was
returned (`0` = primary, `g` = backup generation `g`; `none` when every
candidate failed), the promotion rewrite of the primary file when a
backup was recovered, whether the corrupt primary was copied to its
`.corrupted` side-name, and whether a fresh empty store was created. -/
structure LoadResult where
  store : CommitStore
  served : Option Nat
  rewrittenPrimary : Option Json
  corruptedCopied : Bool
  fresh : Bool

/-- One pass of `_load_store`'s candidate loop (commit_your_day.py lines
348-367) over the remaining `(generation, file)` candidates, tracking
whether the `.corrupted` copy has been made.  A missing candidate is
skipped.  An empty or syntactically-invalid candidate takes the `except`
branch, which copies the primary to `.corrupted` when the failing
candidate *is* the primary.  An `OSError`-unreadable candidate also takes
the `except` branch, but there the `shutil.copy2` re-reads the unreadable
file, fails the same way, and is suppressed by
`contextlib.suppress(OSError)`, so no `.corrupted` copy results.  A
candidate whose bytes are not valid UTF-8 raises `UnicodeDecodeError`
from `read_text`, which the `except` tuple
`(json.JSONDecodeError, OSError, KeyError, TypeError)` does not catch:
the loop aborts and the exception propagates.  A parsed non-dict root is
skipped with only a warning; a dict root is deserialized and returned,
rewriting the primary when the winner is a backup. -/
def loadStoreGo (now : String) :
    List (Nat × FileState) → Bool → Except LoadFailure LoadResult
  | [], corr =>
      .ok { store := newStore now, served := none, rewrittenPrimary := none
            corruptedCopied := corr, fresh := true }
  | (g, fs) :: rest, corr =>
      match fs with
      | .absent => loadStoreGo now rest corr
      | .ioError => loadStoreGo now rest corr
      | .badUtf8 => .error .unicodeError
      | .empty => loadStoreGo now rest (corr || g == 0)
      | .badJson => loadStoreGo now rest (corr || g == 0)
      | .root j =>
          match j with
          | .obj kvs =>
              let store := CommitStore.fromDict kvs
              .ok { store := store
                    served := some g
                    rewrittenPrimary := if g == 0 then none else some store.toDict
                    corruptedCopied := corr
                    fresh := false }
          | _ => loadStoreGo now rest corr

/-- `_load_store` (commit_your_day.py lines 344-369): try the primary and
then backups 1..`MAX_BACKUPS` in order; fall back to `_new_store()` (with
current timestamp `now`) when every candidate fails benignly; an
undecodable candidate crashes the whole load with an uncaught
`UnicodeDecodeError`. -/
def loadStore (now : String) (f : StoreFiles) : Except LoadFailure LoadResult :=
  loadStoreGo now [(0, f.primary), (1, f.bak1), (2, f.bak2), (3, f.bak3)] false

-- ---------------------------------------------------------------------------
-- pebbles.py: data model and persistence
-- ---------------------------------------------------------------------------

/-- `_Pebble` dataclass (pebbles.py lines 32-37). -/
structure Pebble where
  text : String
  timestamp : String
deriving DecidableEq, Repr

/-- The per-entry filter inside `_load` (pebbles.py lines 124-132): an
entry is kept exactly when it is a dict whose `text` and `timestamp`
values are both strings. -/
def parsePebbleEntry : Json → Option Pebble
  | .obj kvs =>
      match Json.lookup kvs "text", Json.lookup kvs "timestamp" with
      | some (.str t), some (.str ts) => some { text := t, timestamp := ts }
      | _, _ => none
  | _ => none

/-- `_load` (pebbles.py lines 97-132).  Missing file → `[]`; `OSError`
on read → `_die` (exit 1); a non-UTF-8 file → uncaught
`UnicodeDecodeError` (the `except OSError` clause does not catch it);
empty/whitespace-only content → `[]`; invalid JSON → `_die`; non-list
root → `_die`; list root → keep only the well-formed entries, silently
dropping the rest. -/
def pebblesLoad : FileState → Except LoadFailure (List Pebble)
  | .absent => .ok []
  | .ioError => .error (.exit 1)
  | .badUtf8 => .error .unicodeError
  | .empty => .ok []
  | .badJson => .error (.exit 1)
  | .root (.arr entries) => .ok (entries.filterMap parsePebbleEntry)
  | .root _ => .error (.exit 1)

-- ---------------------------------------------------------------------------
-- capsule.py and memory_jar.py: loads
-- ---------------------------------------------------------------------------

/-- `load_data` (capsule.py lines 20-31): missing file, read error, JSON
error, or non-list root all yield `[]`; a list root is returned as the
raw list of entries; a non-UTF-8 file raises `UnicodeDecodeError`, which
the `except (json.JSONDecodeError, OSError)` clause does not catch, so
it propagates. -/
def capsuleLoad : FileState → Except LoadFailure (List Json)
  | .absent => .ok []
  | .ioError => .ok []
  | .badUtf8 => .error .unicodeError
  | .empty => .ok []
  | .badJson => .ok []
  | .root (.arr xs) => .ok xs
  | .root _ => .ok []

/-- `load_jar` (memory_jar.py lines 58-66): missing file or any
`JSONDecodeError`/`IOError` yields `[]`; a non-UTF-8 file raises
`UnicodeDecodeError`, which the `except (json.JSONDecodeError, IOError)`
clause does not catch, so it propagates; otherwise the parsed root is
returned unchecked (a non-list root is passed through as-is). -/
def memJarLoad : FileState → Except LoadFailure Json
  | .absent => .ok (.arr [])
  | .ioError => .ok (.arr [])
  | .badUtf8 => .error .unicodeError
  | .empty => .ok (.arr [])
  | .badJson => .ok (.arr [])
  | .root j => .ok j

-- ---------------------------------------------------------------------------
-- commit_your_day.py: commit-type detection and commit creation
-- ---------------------------------------------------------------------------

/-- Membership in the strip set `".,!?;:"`. -/
def isStripChar (c : Char) : Bool :=
  c == '.' || c == ',' || c == '!' || c == '?' || c == ';' || c == ':'

/-- Python `word.strip(".,!?;:")`: remove those characters from both
ends. -/
def stripEnds (w : String) : String :=
  String.mk (((w.toList.dropWhile isStripChar).reverse.dropWhile isStripChar).reverse)

/-- `TYPE_KEYWORDS` (commit_your_day.py lines 68-104) as a lookup. -/
def typeKeyword : String → Option String
  | "fixed" => some "fix"
  | "repaired" => some "fix"
  | "resolved" => some "fix"
  | "debugged" => some "fix"
  | "patched" => some "fix"
  | "learned" => some "docs"
  | "studied" => some "docs"
  | "researched" => some "docs"
  | "documented" => some "docs"
  | "noted" => some "docs"
  | "tried" => some "feat"
  | "built" => some "feat"
  | "created" => some "feat"
  | "shipped" => some "feat"
  | "launched" => some "feat"
  | "finished" => some "feat"
  | "completed" => some "feat"
  | "started" => some "feat"
  | "made" => some "feat"
  | "added" => some "feat"
  | "improved" => some "refactor"
  | "optimized" => some "refactor"
  | "refactored" => some "refactor"
  | "restructured" => some "refactor"
  | "simplified" => some "refactor"
  | "cleaned" => some "chore"
  | "organized" => some "chore"
  | "maintained" => some "chore"
  | "updated" => some "chore"
  | "styled" => some "style"
  | "designed" => some "style"
  | "formatted" => some "style"
  | "tested" => some "test"
  | "verified" => some "test"
  | "validated" => some "test"
  | _ => none

/-- `_detect_commit_type` (commit_your_day.py lines 377-384): lowercase
the message, split on whitespace, strip punctuation from each word, and
return the first keyword hit, defaulting to `"feat"`. -/
def detectCommitType (message : String) : String :=
  let words := (message.toLower.split Char.isWhitespace).filter (· ≠ "")
  match words.findSome? (fun w => typeKeyword (stripEnds w)) with
  | some t => t
  | none => "feat"

/-- `_create_commit` (commit_your_day.py lines 772-795).  The generated
uuid, UTC timestamp, and today's date are passed in explicitly.  The
commit type falls back to keyword detection when the override is `None`
or empty (Python truthiness); mood and energy are clamped into their
declared ranges with `max(lo, min(hi, x))`. -/
def createCommit (uuid nowIso today : String) (message : String)
    (commitType : Option String) (scope : String) (details : String)
    (tags : List String) (mood : Int) (energy : Int) : LifeCommit :=
  let resolvedType :=
    match commitType with
    | some t => if t ≠ "" then t else detectCommitType message
    | none => detectCommitType message
  { commit_id := uuid
    timestamp := nowIso
    commit_date := today
    commit_type := resolvedType
    scope := scope
    message := message
    details := details
    tags := tags
    mood_score := max MOOD_MIN (min MOOD_MAX mood)
    energy_score := max ENERGY_MIN (min ENERGY_MAX energy) }

/-- Python `str.strip()` with no arguments: remove whitespace from both
ends. -/
def pyStrip (s : String) : String :=
  String.mk
    (((s.toList.dropWhile Char.isWhitespace).reverse.dropWhile Char.isWhitespace).reverse)

/-- The fields of `argparse.Namespace` that `_cmd_quick_commit` reads.
`--scope` has an argparse default of `"life"`, so it is always a string;
the other optional flags default to `None`. -/
structure QuickArgs where
  message : Option String := none
  commit_type : Option String := none
  scope : String := "life"
  tags : Option String := none
  mood : Option Int := none
  energy : Option Int := none
  details : Option String := none

/-- `_cmd_quick_commit` (commit_your_day.py lines 931-977) up to the
point where the commit is appended and saved: empty (stripped) message →
`sys.exit(1)`; `args.scope or "life"` (truthiness: empty string falls
back); tags parsed by splitting on commas, stripping, and dropping
empties; an out-of-range `--mood` or `--energy` → error message and
`sys.exit(1)`; otherwise the commit built by `_create_commit`. -/
def cmdQuickCommit (uuid nowIso today : String) (args : QuickArgs) :
    Except Nat LifeCommit :=
  let messageRaw := args.message.getD ""
  if pyStrip messageRaw = "" then .error 1
  else
    let scope := if args.scope ≠ "" then args.scope else "life"
    let details := args.details.getD ""
    let tags : List String := match args.tags with
      | some t =>
          if t ≠ "" then ((t.splitOn ",").map pyStrip).filter (· ≠ "") else []
      | none => []
    let mood := args.mood.getD MOOD_DEFAULT
    let energy := args.energy.getD ENERGY_DEFAULT
    if mood < MOOD_MIN ∨ mood > MOOD_MAX then .error 1
    else if energy < ENERGY_MIN ∨ energy > ENERGY_MAX then .error 1
    else
      .ok (createCommit uuid nowIso today (pyStrip messageRaw) args.commit_type
        scope details tags mood energy)

-- ---------------------------------------------------------------------------
-- commit_your_day.py: streak computation
-- ---------------------------------------------------------------------------

/-- Python `sorted(s, reverse=True)` on integer day numbers: sort
ascending, then reverse. -/
def sortDesc (l : List Int) : List Int :=
  (l.insertionSort (· ≤ ·)).reverse

/-- The `for i in range(1, len(unique_dates))` loop of `_compute_streak`
(commit_your_day.py lines 462-472): starting from 1, extend while each
adjacent pair of the descending date list differs by exactly one day,
stopping at the first gap. -/
def runLen : List Int → Nat
  | [] => 0
  | [_] => 1
  | a :: b :: rest => if a - b = 1 then 1 + runLen (b :: rest) else 1

/-- `_compute_streak` (commit_your_day.py lines 450-474) over the list of
commit dates (as day numbers; `today` is today's day number): distinct
dates sorted descending; 0 when empty or when the most recent date is
neither today nor yesterday; otherwise the length of the initial
consecutive run. -/
def computeStreak (today : Int) (dates : List Int) : Nat :=
  if dates.isEmpty then 0
  else
    let uniqueDates := sortDesc dates.dedup
    let yesterday := today - 1
    match uniqueDates.head? with
    | none => 0
    | some d =>
        if d = today ∨ d = yesterday then runLen uniqueDates else 0

-- ---------------------------------------------------------------------------
-- commit_your_day.py: aggregation helpers
-- ---------------------------------------------------------------------------

/-- `_WeekStats` TypedDict (commit_your_day.py lines 525-528); the float
averages are modelled exactly as rationals. -/
structure WeekStats where
  count : Nat
  mood_avg : ℚ
  energy_avg : ℚ
deriving DecidableEq, Repr

/-- `_week_stats` (commit_your_day.py lines 553-560): the empty list maps
to the neutral record, otherwise integer sums divided by the count. -/
def weekStats (commits : List LifeCommit) : WeekStats :=
  if commits.isEmpty then { count := 0, mood_avg := 0, energy_avg := 0 }
  else
    let count := commits.length
    { count := count
      mood_avg := ((commits.map (fun c => (c.mood_score : ℚ))).sum) / count
      energy_avg := ((commits.map (fun c => (c.energy_score : ℚ))).sum) / count }

/-- `_compute_tag_counts` (commit_your_day.py lines 539-544): the
`Counter` over all tags, modelled as the concatenated tag list (counts
are `List.count`). -/
def computeTagCounts (commits : List LifeCommit) : List String :=
  commits.flatMap (·.tags)

-- ---------------------------------------------------------------------------
-- buddy.py / pocket_poet.py: weighted selection and seeding
-- ---------------------------------------------------------------------------

/-- `Mood` enum (buddy.py lines 50-55). -/
inductive BuddyMood where
  | happy : BuddyMood
  | chill : BuddyMood
  | sleepy : BuddyMood
deriving DecidableEq, Repr

/-- `Action` enum (buddy.py lines 58-65). -/
inductive BuddyAction where
  | idle : BuddyAction
  | blink : BuddyAction
  | wiggle : BuddyAction
  | bounce : BuddyAction
  | doze : BuddyAction
deriving DecidableEq, Repr

/-- `_MOOD_WEIGHTS` (buddy.py lines 83-100). -/
def moodWeights : BuddyMood → List (BuddyAction × Nat)
  | .happy => [(.idle, 3), (.blink, 3), (.wiggle, 3), (.bounce, 2)]
  | .chill => [(.idle, 5), (.blink, 3), (.wiggle, 1)]
  | .sleepy => [(.idle, 3), (.blink, 2), (.doze, 4)]

/-- Modelled from the spec: the weighted-selection primitive
(`random.choices(actions, weights=weights, k=1)` in buddy.py line 425
lives in the Python standard library, not in this repository).  Per the
spec's cumulative-weight description, a uniform draw `r` in
`[0, sum weights)` selects the first index whose cumulative weight
exceeds `r`. -/
def weightedChoiceIdx : List Nat → Nat → Nat
  | [], _ => 0
  | w :: rest, r => if r < w then 0 else 1 + weightedChoiceIdx rest (r - w)

/-- `choose_action` (buddy.py lines 409-425) driven by one uniform draw
`r` below the mood's total weight. -/
def chooseAction (m : BuddyMood) (r : Nat) : BuddyAction :=
  let entries := moodWeights m
  let actions := entries.map (·.1)
  let weights := entries.map (·.2)
  actions.getD (weightedChoiceIdx weights r) .idle

/-- Modelled from the spec: `random.Random(seed)` / `random.seed(seed)`
(Python standard library) is a deterministic generator fully determined
by its seed; modelled as a 64-bit linear congruential generator. -/
def lcgNext (state : Nat) : Nat :=
  (state * 6364136223846793005 + 1442695040888963407) % (2 ^ 64)

/-- The `i`-th raw draw of the seeded generator. -/
def seededDraw (seed : Nat) : Nat → Nat
  | 0 => lcgNext seed
  | i + 1 => lcgNext (seededDraw seed i)

/-- The total weight of a mood's action table. -/
def moodTotalWeight (m : BuddyMood) : Nat :=
  ((moodWeights m).map (·.2)).sum

/-- The sequence of `n` actions chosen by a generator seeded with
`seed` (each step consumes one draw, reduced into the weight range). -/
def selectionSeq (m : BuddyMood) (seed : Nat) (n : Nat) : List BuddyAction :=
  (List.range n).map fun i => chooseAction m (seededDraw seed i % moodTotalWeight m)

/-- Whether failing on the primary actually leaves a `.corrupted` copy:
true when the file was readable but its JSON was invalid (empty or
malformed content — `shutil.copy2` then succeeds); false when the read
itself raised `OSError`, because `shutil.copy2` re-reads the file, fails
the same way, and is suppressed by `contextlib.suppress(OSError)`. -/
def corruptedCopyMade : FileState → Bool
  | .empty => true
  | .badJson => true
  | _ => false

/-- A candidate file parses as a valid store exactly when it holds a
dict root; this returns the dict's fields. -/
def candObj : FileState → Option (List (String × Json))
  | .root (.obj kvs) => some kvs
  | _ => none

/-- A candidate that `_load_store`'s loop passes over without returning
and without crashing: anything that is not a dict-rooted parse and not
an undecodable (non-UTF-8) file. -/
def benignFail (fs : FileState) : Prop :=
  candObj fs = none ∧ fs ≠ .badUtf8

-- ---------------------------------------------------------------------------
-- Helper lemmas
-- ---------------------------------------------------------------------------

theorem pyStr_str (s : String) : Json.pyStr (.str s) = s := rfl

theorem map_pyStr_map_str (l : List String) :
    (l.map Json.str).map Json.pyStr = l := by
  simp [List.map_map, Function.comp_def, Json.pyStr]

theorem fromDict_toDict_commit (c : LifeCommit) :
    LifeCommit.fromDict
      [ ("id", .str c.commit_id)
      , ("timestamp", .str c.timestamp)
      , ("date", .str c.commit_date)
      , ("type", .str c.commit_type)
      , ("scope", .str c.scope)
      , ("message", .str c.message)
      , ("details", .str c.details)
      , ("tags", .arr (c.tags.map .str))
      , ("mood_score", .int c.mood_score)
      , ("energy_score", .int c.energy_score)
      ] = c := by
  cases c
  simp [LifeCommit.fromDict, strField, Json.lookup, Json.pyStr,
    List.map_map, Function.comp_def]

theorem filterMap_fromDict_map_toDict (l : List LifeCommit) :
    ((l.map LifeCommit.toDict).filterMap fun e =>
      match e with
      | Json.obj ckvs => some (LifeCommit.fromDict ckvs)
      | _ => none) = l := by
  induction l with
  | nil => rfl
  | cons c rest ih =>
      simp only [List.map_cons, List.filterMap_cons, LifeCommit.toDict]
      simpa [ih] using fromDict_toDict_commit c

theorem store_fromDict_toDict (S : CommitStore) :
    CommitStore.fromDict
      [ ("version", .str S.version)
      , ("created_at", .str S.created_at)
      , ("commits", .arr (S.commits.map LifeCommit.toDict))
      ] = S := by
  cases S
  simp [CommitStore.fromDict, strField, Json.lookup, Json.pyStr,
    ← List.filterMap_map, filterMap_fromDict_map_toDict]

-- ---------------------------------------------------------------------------
-- C1: atomic writer failure safety
-- ---------------------------------------------------------------------------

/-- C1: in both `_write_atomic_json` (commit_your_day.py) and `_save`
(pebbles.py), the payload is written to a temporary file beside the
target; any failure before the rename completes deletes the temporary
file, propagates the failure, and leaves the target unchanged, and the
target is only ever replaced by the complete new payload via the final
rename. -/
theorem atomic_writer_failure_safety (fs : FS) (payload : String)
    (fault : Fault) (h : fault ≠ Fault.none) :
    writeAtomicJson fs payload fault
        = (Except.error (), { target := fs.target, tmp := none }) ∧
    pebblesSave fs payload fault
        = (Except.error (), { target := fs.target, tmp := none }) ∧
    writeAtomicJson fs payload Fault.none
        = (Except.ok (), { target := some payload, tmp := none }) ∧
    pebblesSave fs payload Fault.none
        = (Except.ok (), { target := some (payload ++ "\n"), tmp := none }) := by
  cases fault <;> simp_all [writeAtomicJson, pebblesSave]

/-- Witness for C1 at a concrete state, payload, and fault. -/
theorem atomic_writer_failure_safety_witness :
    Fault.atWrite ≠ Fault.none ∧
    (writeAtomicJson ⟨some "old", none⟩ "new" Fault.atWrite
        = (Except.error (), { target := some "old", tmp := none }) ∧
     pebblesSave ⟨some "old", none⟩ "new" Fault.atWrite
        = (Except.error (), { target := some "old", tmp := none }) ∧
     writeAtomicJson ⟨some "old", none⟩ "new" Fault.none
        = (Except.ok (), { target := some "new", tmp := none }) ∧
     pebblesSave ⟨some "old", none⟩ "new" Fault.none
        = (Except.ok (), { target := some ("new" ++ "\n"), tmp := none })) :=
  ⟨by decide, atomic_writer_failure_safety ⟨some "old", none⟩ "new" Fault.atWrite (by decide)⟩

-- ---------------------------------------------------------------------------
-- C5: not every tool writes atomically (corrected)
-- ---------------------------------------------------------------------------

/-- C5 counterexample: `save_data` in capsule.py truncates the target in
place, so a process killed between the truncating open and the write
observes the target empty — neither the old content nor the complete new
payload.  This refutes the claim that every one of the four journaling
tools persists via the write-temp/fsync/rename pattern. -/
theorem capsule_save_not_atomic_cex :
    (capsuleSaveKilled ⟨some "[\x7bold\x7d]", none⟩ "[]" KillPoint.afterCreate).target
        = some "" ∧
    some "" ≠ some "[\x7bold\x7d]" ∧ some "" ≠ some ("[]" ++ "\n") := by
  refine ⟨rfl, by decide, by decide⟩

/-- C5 amended: only `commit_your_day.py` and `pebbles.py` persist with
the write-temp/fsync/atomic-rename pattern (under any kill point the
target holds either the old content or the complete new payload);
`capsule.py` and `memory_jar.py` write directly to the target after
truncating it, so a kill mid-write leaves the target empty or holding a
proper prefix of the payload. -/
theorem save_atomicity_per_tool (fs : FS) (payload : String) (kp : KillPoint) :
    ((writeAtomicJsonKilled fs payload kp).target = fs.target ∨
     (writeAtomicJsonKilled fs payload kp).target = some payload) ∧
    ((pebblesSaveKilled fs payload kp).target = fs.target ∨
     (pebblesSaveKilled fs payload kp).target = some (payload ++ "\n")) ∧
    (capsuleSaveKilled ⟨some "[1]", none⟩ "[1, 2]" KillPoint.afterCreate).target
        = some "" ∧
    (memJarSaveKilled ⟨some "[1]", none⟩ "[1, 2]" (KillPoint.midWrite 3)).target
        = some "[1," := by
  refine ⟨?_, ?_, rfl, rfl⟩ <;>
    cases kp <;> simp [writeAtomicJsonKilled, pebblesSaveKilled]

-- ---------------------------------------------------------------------------
-- C3: save/load round trip
-- ---------------------------------------------------------------------------

/-- C3: saving any store with `_save_store` and loading it back with
`_load_store` succeeds and returns a store equal to the original (so in
particular the record sequence has the same length and order) and every
field of every record round-trips unchanged through
`to_dict`/`from_dict` and the JSON layer. -/
theorem store_save_load_roundtrip (now : String) (f : StoreFiles)
    (S : CommitStore) :
    loadStore now (saveStore f S)
      = Except.ok
          { store := S
            served := some 0
            rewrittenPrimary := none
            corruptedCopied := false
            fresh := false } := by
  have h : loadStore now (saveStore f S)
      = Except.ok
          { store := CommitStore.fromDict
              [ ("version", .str S.version)
              , ("created_at", .str S.created_at)
              , ("commits", .arr (S.commits.map LifeCommit.toDict))
              ]
            served := some 0
            rewrittenPrimary := none
            corruptedCopied := false
            fresh := false } := by
    simp [loadStore, saveStore, loadStoreGo, CommitStore.toDict]
  rw [h, store_fromDict_toDict]

-- ---------------------------------------------------------------------------
-- C4: clamping vs rejection of out-of-range scores (corrected)
-- ---------------------------------------------------------------------------

/-- C4 counterexample: quick-commit with `--mood 99` is rejected with
exit code 1 by `_cmd_quick_commit`'s range check; no commit with a
clamped score is stored. -/
theorem quick_commit_rejects_mood_99_cex :
    cmdQuickCommit "uuid-1" "2024-01-01T00:00:00+00:00" "2024-01-01"
      { message := some "built a birdhouse", mood := some 99, energy := some 3 }
      = Except.error 1 := by
  rfl

/-- C4 amended: `_create_commit` clamps mood into `[-2, 2]` and energy
into `[1, 5]` (as does the interactive prompt path via `_prompt_int`),
but `_cmd_quick_commit` rejects an out-of-range `--mood` or `--energy`
with an error exit (code 1) instead of clamping it. -/
theorem create_commit_clamps_quick_commit_rejects
    (uuid nowIso today message : String) (ct : Option String)
    (scope details : String) (tags : List String) (mood energy : Int)
    (args : QuickArgs)
    (h : (args.mood.getD MOOD_DEFAULT < MOOD_MIN ∨
          MOOD_MAX < args.mood.getD MOOD_DEFAULT) ∨
         (args.energy.getD ENERGY_DEFAULT < ENERGY_MIN ∨
          ENERGY_MAX < args.energy.getD ENERGY_DEFAULT)) :
    (createCommit uuid nowIso today message ct scope details tags mood energy).mood_score
        = max MOOD_MIN (min MOOD_MAX mood) ∧
    (createCommit uuid nowIso today message ct scope details tags mood energy).energy_score
        = max ENERGY_MIN (min ENERGY_MAX energy) ∧
    MOOD_MIN ≤ (createCommit uuid nowIso today message ct scope details tags mood energy).mood_score ∧
    (createCommit uuid nowIso today message ct scope details tags mood energy).mood_score ≤ MOOD_MAX ∧
    ENERGY_MIN ≤ (createCommit uuid nowIso today message ct scope details tags mood energy).energy_score ∧
    (createCommit uuid nowIso today message ct scope details tags mood energy).energy_score ≤ ENERGY_MAX ∧
    cmdQuickCommit uuid nowIso today args = Except.error 1 := by
  refine ⟨rfl, rfl, le_max_left _ _,
    max_le (by decide) (min_le_left _ _),
    le_max_left _ _,
    max_le (by decide) (min_le_left _ _), ?_⟩
  simp only [cmdQuickCommit]
  split_ifs with h1 h2 h3
  · rfl
  · rfl
  · rfl
  · exfalso
    simp only [MOOD_DEFAULT, MOOD_MIN, MOOD_MAX, ENERGY_DEFAULT, ENERGY_MIN,
      ENERGY_MAX] at h h2 h3
    omega

/-- Witness for C4's amended theorem at mood 99. -/
theorem create_commit_clamps_witness :
    ((((some (99 : Int)).getD MOOD_DEFAULT < MOOD_MIN ∨
       MOOD_MAX < (some (99 : Int)).getD MOOD_DEFAULT) ∨
      ((some (3 : Int)).getD ENERGY_DEFAULT < ENERGY_MIN ∨
       ENERGY_MAX < (some (3 : Int)).getD ENERGY_DEFAULT))) ∧
    ((createCommit "u" "n" "d" "built a birdhouse" none "life" "" [] 99 3).mood_score
        = max MOOD_MIN (min MOOD_MAX 99) ∧
     (createCommit "u" "n" "d" "built a birdhouse" none "life" "" [] 99 3).energy_score
        = max ENERGY_MIN (min ENERGY_MAX 3) ∧
     MOOD_MIN ≤ (createCommit "u" "n" "d" "built a birdhouse" none "life" "" [] 99 3).mood_score ∧
     (createCommit "u" "n" "d" "built a birdhouse" none "life" "" [] 99 3).mood_score ≤ MOOD_MAX ∧
     ENERGY_MIN ≤ (createCommit "u" "n" "d" "built a birdhouse" none "life" "" [] 99 3).energy_score ∧
     (createCommit "u" "n" "d" "built a birdhouse" none "life" "" [] 99 3).energy_score ≤ ENERGY_MAX ∧
     cmdQuickCommit "u" "n" "d"
       { message := some "built a birdhouse", mood := some 99, energy := some 3 }
       = Except.error 1) :=
  ⟨by decide,
   create_commit_clamps_quick_commit_rejects "u" "n" "d" "built a birdhouse" none
     "life" "" [] 99 3
     { message := some "built a birdhouse", mood := some 99, energy := some 3 }
     (by decide)⟩

-- ---------------------------------------------------------------------------
-- C6: load failure behavior per tool (corrected)
-- ---------------------------------------------------------------------------

/-- C6 counterexample: pebbles `_load` on a file with invalid JSON calls
`_die`, exiting the process with code 1 — corruption *is* surfaced as a
hard failure for this tool.  Likewise a file whose bytes are not valid
UTF-8 crashes `_load_store` with an uncaught `UnicodeDecodeError`. -/
theorem pebbles_load_dies_on_corrupt_cex :
    pebblesLoad FileState.badJson = Except.error (.exit 1) ∧
    loadStore "2024-01-01T00:00:00+00:00"
        ⟨.badUtf8, .absent, .absent, .absent⟩
      = Except.error .unicodeError := ⟨rfl, rfl⟩

/-- C6 amended: for missing or corrupt files the four loaders diverge.
`load_data` (capsule) and `load_jar` (memory_jar) return `[]` on a
missing, unreadable, empty, or invalid-JSON file (`load_jar` returns the
parsed root unchecked, so a wrong root type is passed through rather
than replaced by an empty list), and `_load_store` (commit_your_day)
falls back to a fresh store; but pebbles `_load` exits with code 1 when
the file is unreadable, contains invalid JSON, or has a non-list root,
returning `[]` only for a missing or empty file; and a file whose bytes
are not valid UTF-8 crashes every one of the four loaders with an
uncaught `UnicodeDecodeError` (none of their `except` tuples lists it),
so that corruption mode *is* surfaced as a hard failure everywhere. -/
theorem load_failure_behavior_per_tool :
    (pebblesLoad .absent = .ok [] ∧ pebblesLoad .empty = .ok [] ∧
     pebblesLoad .ioError = .error (.exit 1) ∧
     pebblesLoad .badJson = .error (.exit 1) ∧
     pebblesLoad .badUtf8 = .error .unicodeError ∧
     (∀ kvs, pebblesLoad (.root (.obj kvs)) = .error (.exit 1))) ∧
    (capsuleLoad .absent = .ok [] ∧ capsuleLoad .ioError = .ok [] ∧
     capsuleLoad .empty = .ok [] ∧ capsuleLoad .badJson = .ok [] ∧
     capsuleLoad .badUtf8 = .error .unicodeError ∧
     (∀ kvs, capsuleLoad (.root (.obj kvs)) = .ok []) ∧
     (∀ xs, capsuleLoad (.root (.arr xs)) = .ok xs)) ∧
    (memJarLoad .absent = .ok (.arr []) ∧ memJarLoad .ioError = .ok (.arr []) ∧
     memJarLoad .badJson = .ok (.arr []) ∧
     memJarLoad .badUtf8 = .error .unicodeError ∧
     (∀ j, memJarLoad (.root j) = .ok j)) ∧
    (∀ now, loadStore now ⟨.badJson, .absent, .absent, .absent⟩
        = .ok { store := newStore now, served := none, rewrittenPrimary := none
                corruptedCopied := true, fresh := true }) ∧
    (∀ now, loadStore now ⟨.badUtf8, .absent, .absent, .absent⟩
        = .error .unicodeError) := by
  refine ⟨⟨rfl, rfl, rfl, rfl, rfl, fun kvs => rfl⟩,
    ⟨rfl, rfl, rfl, rfl, rfl, fun kvs => rfl, fun xs => rfl⟩,
    ⟨rfl, rfl, rfl, rfl, fun j => rfl⟩, fun now => rfl, fun now => rfl⟩

-- ---------------------------------------------------------------------------
-- C8: aggregations are total on empty input
-- ---------------------------------------------------------------------------

/-- C8: every in-memory aggregation returns its documented neutral value
on the empty record sequence: streak 0, week stats
`{count: 0, mood_avg: 0.0, energy_avg: 0.0}`, and an empty tag counter;
no aggregation divides by zero or fails on empty input. -/
theorem aggregations_neutral_on_empty :
    (∀ today : Int, computeStreak today [] = 0) ∧
    weekStats [] = { count := 0, mood_avg := 0, energy_avg := 0 } ∧
    computeTagCounts [] = [] ∧
    (∀ t, (computeTagCounts []).count t = 0) := by
  exact ⟨fun _ => rfl, rfl, rfl, fun _ => rfl⟩

-- ---------------------------------------------------------------------------
-- C9: weighted selection and reseedability
-- ---------------------------------------------------------------------------

/-- C9: weighted selection never lands on a zero-weight candidate (the
selected index always carries nonzero weight, for any uniform draw below
the total), and selection is reseedable: the same seed always produces
the identical selection sequence. -/
theorem weighted_selection_sound (ws : List Nat) (r : Nat) (h : r < ws.sum) :
    ws.getD (weightedChoiceIdx ws r) 0 ≠ 0 ∧
    (∀ (m : BuddyMood) (s1 s2 n : Nat), s1 = s2 →
        selectionSeq m s1 n = selectionSeq m s2 n) := by
  constructor
  · induction ws generalizing r with
    | nil => simp at h
    | cons w rest ih =>
        simp only [weightedChoiceIdx]
        by_cases hr : r < w
        · simp only [if_pos hr, List.getD_cons_zero]
          omega
        · rw [if_neg hr, Nat.add_comm, List.getD_cons_succ]
          apply ih
          simp only [List.sum_cons] at h
          omega
  · intro m s1 s2 n hs
    rw [hs]

/-- Witness for C9 with weights `[3, 1]` and draw 2, and seed 42. -/
theorem weighted_selection_sound_witness :
    (2 < [3, 1].sum) ∧
    ([3, 1].getD (weightedChoiceIdx [3, 1] 2) 0 ≠ 0 ∧
     (∀ (m : BuddyMood) (s1 s2 n : Nat), s1 = s2 →
         selectionSeq m s1 n = selectionSeq m s2 n)) :=
  ⟨by decide, weighted_selection_sound [3, 1] 2 (by decide)⟩

-- ---------------------------------------------------------------------------
-- C10: pebbles load silently drops malformed entries
-- ---------------------------------------------------------------------------

theorem parsePebbleEntry_eq_some (e : Json) (p : Pebble) :
    parsePebbleEntry e = some p ↔
      ∃ kvs, e = Json.obj kvs ∧
        Json.lookup kvs "text" = some (.str p.text) ∧
        Json.lookup kvs "timestamp" = some (.str p.timestamp) := by
  cases e with
  | null => simp [parsePebbleEntry]
  | bool b => simp [parsePebbleEntry]
  | int n => simp [parsePebbleEntry]
  | str s => simp [parsePebbleEntry]
  | arr xs => simp [parsePebbleEntry]
  | obj kvs =>
      constructor
      · intro h
        refine ⟨kvs, rfl, ?_⟩
        simp only [parsePebbleEntry] at h
        split at h
        next t ts h1 h2 =>
          obtain rfl : p = ⟨t, ts⟩ := by simpa using h.symm
          exact ⟨h1, h2⟩
        next => simp at h
      · rintro ⟨kvs2, hk, ht, hts⟩
        obtain rfl : kvs2 = kvs := by
          injection hk.symm
        simp only [parsePebbleEntry]
        rw [ht, hts]

/-- C10: every pebble returned by `_load` has string `text` and
`timestamp` fields; list entries that are not dicts, or whose `text` or
`timestamp` is missing or not a string, are silently dropped (no error;
they do not appear in the result), so the result can be strictly shorter
than the stored list. -/
theorem pebbles_load_drops_malformed (entries : List Json) :
    pebblesLoad (.root (.arr entries)) = .ok (entries.filterMap parsePebbleEntry) ∧
    (entries.filterMap parsePebbleEntry).length ≤ entries.length ∧
    (∀ p : Pebble, p ∈ entries.filterMap parsePebbleEntry ↔
        ∃ e, e ∈ entries ∧ ∃ kvs, e = Json.obj kvs ∧
          Json.lookup kvs "text" = some (.str p.text) ∧
          Json.lookup kvs "timestamp" = some (.str p.timestamp)) := by
  refine ⟨rfl, List.length_filterMap_le _ _, ?_⟩
  intro p
  simp only [List.mem_filterMap, parsePebbleEntry_eq_some]

/-- Witness for C10: a well-formed entry next to a malformed one loads
to a strictly smaller list with no error. -/
theorem pebbles_load_drops_malformed_witness :
    pebblesLoad (.root (.arr
      [ .obj [("text", .str "sunrise"), ("timestamp", .str "2024-01-01T08:00:00+00:00")]
      , .int 5 ]))
      = .ok [{ text := "sunrise", timestamp := "2024-01-01T08:00:00+00:00" }] ∧
    (1 : Nat) ≤ 2 := by
  have h := pebbles_load_drops_malformed
    [ .obj [("text", .str "sunrise"), ("timestamp", .str "2024-01-01T08:00:00+00:00")]
    , .int 5 ]
  exact ⟨by rw [h.1]; rfl, by decide⟩

-- ---------------------------------------------------------------------------
-- C2: loader fallback chain (corrected)
-- ---------------------------------------------------------------------------

theorem loadStoreGo_skip (now : String) (g : Nat) (fs : FileState)
    (hfs : candObj fs = none) (hu : fs ≠ .badUtf8)
    (rest : List (Nat × FileState)) (corr : Bool) :
    loadStoreGo now ((g, fs) :: rest) corr
      = loadStoreGo now rest (corr || ((g == 0) && corruptedCopyMade fs)) := by
  cases fs with
  | absent => simp [loadStoreGo, corruptedCopyMade]
  | ioError => simp [loadStoreGo, corruptedCopyMade]
  | badUtf8 => exact absurd rfl hu
  | empty => simp [loadStoreGo, corruptedCopyMade]
  | badJson => simp [loadStoreGo, corruptedCopyMade]
  | root j =>
      cases j <;> simp_all [loadStoreGo, candObj, corruptedCopyMade]

theorem loadStoreGo_hit (now : String) (g : Nat)
    (kvs : List (String × Json)) (rest : List (Nat × FileState)) (corr : Bool) :
    loadStoreGo now ((g, .root (.obj kvs)) :: rest) corr
      = .ok { store := CommitStore.fromDict kvs
              served := some g
              rewrittenPrimary :=
                if g == 0 then none else some (CommitStore.fromDict kvs).toDict
              corruptedCopied := corr
              fresh := false } := rfl

/-- C2 counterexample: a primary file whose JSON parses but whose root
is not a dict (here `[]`) fails to parse as a store, and with no backups
`_load_store` returns a fresh store — but no `.corrupted` side-copy is
made, because the copy happens only in the exception handler; and a
primary whose bytes are not valid UTF-8 makes `_load_store` raise an
uncaught `UnicodeDecodeError` instead of returning at all. -/
theorem load_store_no_corrupted_copy_cex :
    loadStore "2024-01-01T00:00:00+00:00"
        ⟨.root (.arr []), .absent, .absent, .absent⟩
      = Except.ok
          { store := newStore "2024-01-01T00:00:00+00:00"
            served := none
            rewrittenPrimary := none
            corruptedCopied := false
            fresh := true } ∧
    loadStore "2024-01-01T00:00:00+00:00"
        ⟨.badUtf8, .root (.obj []), .absent, .absent⟩
      = Except.error .unicodeError := ⟨rfl, rfl⟩

/-- C2 amended: when the primary fails benignly (missing, `OSError` on
read, empty, invalid JSON, or non-dict root — but not invalid UTF-8),
`_load_store` returns the most recent backup generation that parses as a
dict-rooted store, rewriting the primary to match it via the atomic
writer; when every candidate fails benignly it returns a fresh empty
store (schema version and fresh creation timestamp) without raising.
The `.corrupted` copy results only when the primary was readable but its
JSON was invalid (empty or malformed): for an `OSError`-unreadable
primary the `shutil.copy2` fails the same way and is suppressed, and a
non-dict root is skipped without entering the handler at all.  A primary
whose bytes are not valid UTF-8 raises `UnicodeDecodeError`, which no
`except` clause catches, so `_load_store` crashes instead of falling
back. -/
theorem load_store_fallback (now : String) (f : StoreFiles) :
    (∀ kvs, benignFail f.primary → f.bak1 = .root (.obj kvs) →
        loadStore now f
          = .ok { store := CommitStore.fromDict kvs
                  served := some 1
                  rewrittenPrimary := some (CommitStore.fromDict kvs).toDict
                  corruptedCopied := corruptedCopyMade f.primary
                  fresh := false }) ∧
    (∀ kvs, benignFail f.primary → benignFail f.bak1 →
        f.bak2 = .root (.obj kvs) →
        loadStore now f
          = .ok { store := CommitStore.fromDict kvs
                  served := some 2
                  rewrittenPrimary := some (CommitStore.fromDict kvs).toDict
                  corruptedCopied := corruptedCopyMade f.primary
                  fresh := false }) ∧
    (∀ kvs, benignFail f.primary → benignFail f.bak1 → benignFail f.bak2 →
        f.bak3 = .root (.obj kvs) →
        loadStore now f
          = .ok { store := CommitStore.fromDict kvs
                  served := some 3
                  rewrittenPrimary := some (CommitStore.fromDict kvs).toDict
                  corruptedCopied := corruptedCopyMade f.primary
                  fresh := false }) ∧
    (benignFail f.primary → benignFail f.bak1 → benignFail f.bak2 →
        benignFail f.bak3 →
        loadStore now f
          = .ok { store := newStore now
                  served := none
                  rewrittenPrimary := none
                  corruptedCopied := corruptedCopyMade f.primary
                  fresh := true }) ∧
    (f.primary = .badUtf8 → loadStore now f = .error .unicodeError) := by
  obtain ⟨p, b1, b2, b3⟩ := f
  refine ⟨?_, ?_, ?_, ?_, ?_⟩
  · rintro kvs ⟨hp, hpu⟩ hb1
    subst hb1
    rw [loadStore, loadStoreGo_skip now 0 p hp hpu, loadStoreGo_hit]
    simp
  · rintro kvs ⟨hp, hpu⟩ ⟨h1, h1u⟩ hb2
    subst hb2
    rw [loadStore, loadStoreGo_skip now 0 p hp hpu,
      loadStoreGo_skip now 1 b1 h1 h1u, loadStoreGo_hit]
    simp
  · rintro kvs ⟨hp, hpu⟩ ⟨h1, h1u⟩ ⟨h2, h2u⟩ hb3
    subst hb3
    rw [loadStore, loadStoreGo_skip now 0 p hp hpu,
      loadStoreGo_skip now 1 b1 h1 h1u, loadStoreGo_skip now 2 b2 h2 h2u,
      loadStoreGo_hit]
    simp
  · rintro ⟨hp, hpu⟩ ⟨h1, h1u⟩ ⟨h2, h2u⟩ ⟨h3, h3u⟩
    rw [loadStore, loadStoreGo_skip now 0 p hp hpu,
      loadStoreGo_skip now 1 b1 h1 h1u, loadStoreGo_skip now 2 b2 h2 h2u,
      loadStoreGo_skip now 3 b3 h3 h3u]
    simp [loadStoreGo]
  · intro hpe
    subst hpe
    rfl

/-- Witness for C2: a concrete invalid-JSON primary with a valid first
backup (promoted, `.corrupted` copy made), and a concrete undecodable
primary (crash). -/
theorem load_store_fallback_witness :
    benignFail FileState.badJson ∧
    loadStore "2024-01-01T00:00:00+00:00"
        ⟨.badJson, .root (.obj []), .absent, .absent⟩
      = .ok { store := CommitStore.fromDict []
              served := some 1
              rewrittenPrimary := some (CommitStore.fromDict []).toDict
              corruptedCopied := corruptedCopyMade FileState.badJson
              fresh := false } ∧
    loadStore "2024-01-01T00:00:00+00:00"
        ⟨.badUtf8, .root (.obj []), .absent, .absent⟩
      = .error .unicodeError :=
  ⟨⟨rfl, fun h => nomatch h⟩,
   (load_store_fallback "2024-01-01T00:00:00+00:00"
      ⟨.badJson, .root (.obj []), .absent, .absent⟩).1 []
      ⟨rfl, fun h => nomatch h⟩ rfl,
   (load_store_fallback "2024-01-01T00:00:00+00:00"
      ⟨.badUtf8, .root (.obj []), .absent, .absent⟩).2.2.2.2 rfl⟩

-- ---------------------------------------------------------------------------
-- C7: streak computation
-- ---------------------------------------------------------------------------

theorem runLen_singleton (a : Int) : runLen [a] = 1 := rfl

theorem runLen_cons_cons (a b : Int) (t : List Int) :
    runLen (a :: b :: t) = if a - b = 1 then 1 + runLen (b :: t) else 1 := rfl

theorem sortDesc_perm (l : List Int) : List.Perm (sortDesc l) l :=
  (List.reverse_perm _).trans (List.perm_insertionSort _ _)

theorem mem_sortDesc {x : Int} {l : List Int} : x ∈ sortDesc l ↔ x ∈ l :=
  (sortDesc_perm l).mem_iff

theorem sortDesc_pairwise_ge (l : List Int) : (sortDesc l).Pairwise (· ≥ ·) := by
  have h := List.sorted_insertionSort (· ≤ ·) l
  exact List.pairwise_reverse.mpr h

theorem pairwise_gt_of_ge_nodup (l : List Int) (h1 : l.Pairwise (· ≥ ·))
    (h2 : l.Nodup) : l.Pairwise (· > ·) := by
  induction l with
  | nil => exact List.Pairwise.nil
  | cons a t ih =>
      rw [List.pairwise_cons] at h1 ⊢
      rw [List.nodup_cons] at h2
      refine ⟨fun b hb => ?_, ih h1.2 h2.2⟩
      have hge := h1.1 b hb
      have hne : a ≠ b := fun he => h2.1 (he ▸ hb)
      omega

theorem sortDesc_strict (l : List Int) (h : l.Nodup) :
    (sortDesc l).Pairwise (· > ·) :=
  pairwise_gt_of_ge_nodup _ (sortDesc_pairwise_ge l)
    ((sortDesc_perm l).nodup_iff.mpr h)

theorem sortDesc_head_max (l : List Int) (m : Int) (hm : m ∈ l)
    (hmax : ∀ d ∈ l, d ≤ m) : (sortDesc l).head? = some m := by
  rcases e : sortDesc l with _ | ⟨a, t⟩
  · exfalso
    have hx : m ∈ sortDesc l := mem_sortDesc.mpr hm
    rw [e] at hx
    simp at hx
  · have hmem : m ∈ sortDesc l := mem_sortDesc.mpr hm
    rw [e] at hmem
    have hpa : (a :: t).Pairwise (· ≥ ·) := by
      rw [← e]
      exact sortDesc_pairwise_ge l
    have ham : a ∈ l := mem_sortDesc.mp (by rw [e]; simp)
    have h1 : a ≤ m := hmax a ham
    have h2 : m ≤ a := by
      rcases List.mem_cons.mp hmem with h | h
      · omega
      · exact List.rel_of_pairwise_cons hpa h
    simp only [List.head?_cons, Option.some.injEq]
    omega

theorem runLen_spec : ∀ l : List Int, l.Pairwise (· > ·) →
    ∀ m : Int, l.head? = some m →
      1 ≤ runLen l ∧ (∀ i : Nat, i < runLen l → m - (i : Int) ∈ l) ∧
        m - (runLen l : Int) ∉ l := by
  intro l
  induction l with
  | nil => intro _ m hm; simp at hm
  | cons a t ih =>
      intro hl m hm
      obtain rfl : a = m := by simpa using hm
      cases t with
      | nil =>
          refine ⟨le_refl 1, ?_, ?_⟩
          · intro i hi
            have h0 : i < 1 := hi
            have h1 : i = 0 := by omega
            subst h1
            simp
          · rw [runLen_singleton]
            simp only [List.mem_singleton]
            intro h
            omega
      | cons b t2 =>
          have hab : a > b := List.rel_of_pairwise_cons hl (List.mem_cons_self b t2)
          have hl2 : (b :: t2).Pairwise (· > ·) := hl.of_cons
          by_cases hd : a - b = 1
          · obtain ⟨ih1, ih2, ih3⟩ := ih hl2 b rfl
            refine ⟨?_, ?_, ?_⟩
            · rw [runLen_cons_cons, if_pos hd]
              omega
            · intro i hi
              rw [runLen_cons_cons, if_pos hd] at hi
              cases i with
              | zero => simp
              | succ j =>
                  have hj : j < runLen (b :: t2) := by omega
                  have hmem := ih2 j hj
                  have heq : a - ((j + 1 : Nat) : Int) = b - (j : Int) := by
                    push_cast
                    omega
                  rw [heq]
                  exact List.mem_cons_of_mem a hmem
            · rw [runLen_cons_cons, if_pos hd]
              intro hmem
              have heq : a - ((1 + runLen (b :: t2) : Nat) : Int)
                  = b - (runLen (b :: t2) : Int) := by
                push_cast
                omega
              rw [heq] at hmem
              rcases List.mem_cons.mp hmem with h | h
              · have hle : (0 : Int) ≤ (runLen (b :: t2) : Int) := Int.natCast_nonneg _
                omega
              · exact ih3 h
          · refine ⟨?_, ?_, ?_⟩
            · rw [runLen_cons_cons, if_neg hd]
            · intro i hi
              rw [runLen_cons_cons, if_neg hd] at hi
              have h1 : i = 0 := by omega
              subst h1
              simp
            · rw [runLen_cons_cons, if_neg hd]
              intro hmem
              have hble : ∀ x ∈ b :: t2, x ≤ b := by
                intro x hx
                rcases List.mem_cons.mp hx with rfl | hx2
                · exact le_refl x
                · exact (List.rel_of_pairwise_cons hl2 hx2).le
              push_cast at hmem
              rcases List.mem_cons.mp hmem with h | h
              · omega
              · have := hble _ h
                omega

theorem computeStreak_eq_runLen (today : Int) (dates : List Int) (m : Int)
    (hm : m ∈ dates) (hmax : ∀ d ∈ dates, d ≤ m) :
    (m = today ∨ m = today - 1 →
        computeStreak today dates = runLen (sortDesc dates.dedup)) ∧
    (m ≠ today → m ≠ today - 1 → computeStreak today dates = 0) := by
  have hh : (sortDesc dates.dedup).head? = some m :=
    sortDesc_head_max _ m (List.mem_dedup.mpr hm)
      (fun d hd => hmax d (List.mem_dedup.mp hd))
  have hne : dates.isEmpty = false := by
    cases dates
    · simp at hm
    · rfl
  constructor
  · intro hc
    simp only [computeStreak, hne, Bool.false_eq_true, if_false, hh]
    rw [if_pos hc]
  · intro h1 h2
    simp only [computeStreak, hne, Bool.false_eq_true, if_false, hh]
    rw [if_neg (by tauto)]

/-- C7: `_compute_streak` returns the length of the consecutive-day run
of distinct commit dates ending at the most recent date when that date
is today or yesterday (the returned streak `s` satisfies: `s ≥ 1`, the
`s` dates `m, m-1, ..., m-(s-1)` all occur, and `m-s` does not); it
returns 0 when the list is empty or the most recent date is older than
yesterday; and for dates today, yesterday, and three days ago (none two
days ago) the streak is exactly 2. -/
theorem compute_streak_correct (today : Int) (dates : List Int) :
    (dates = [] → computeStreak today dates = 0) ∧
    (∀ m, m ∈ dates → (∀ d ∈ dates, d ≤ m) → m ≠ today → m ≠ today - 1 →
        computeStreak today dates = 0) ∧
    (∀ m, m ∈ dates → (∀ d ∈ dates, d ≤ m) → (m = today ∨ m = today - 1) →
        1 ≤ computeStreak today dates ∧
        (∀ i : Nat, i < computeStreak today dates → m - (i : Int) ∈ dates) ∧
        m - (computeStreak today dates : Int) ∉ dates) ∧
    computeStreak today [today, today - 1, today - 3] = 2 := by
  refine ⟨?_, ?_, ?_, ?_⟩
  · rintro rfl
    rfl
  · intro m hm hmax h1 h2
    exact (computeStreak_eq_runLen today dates m hm hmax).2 h1 h2
  · intro m hm hmax hc
    have heq := (computeStreak_eq_runLen today dates m hm hmax).1 hc
    have hh : (sortDesc dates.dedup).head? = some m :=
      sortDesc_head_max _ m (List.mem_dedup.mpr hm)
        (fun d hd => hmax d (List.mem_dedup.mp hd))
    have hstr := sortDesc_strict dates.dedup (List.nodup_dedup dates)
    obtain ⟨h1, h2, h3⟩ := runLen_spec (sortDesc dates.dedup) hstr m hh
    rw [heq]
    refine ⟨h1, fun i hi => ?_, fun hmem => h3 ?_⟩
    · exact List.mem_dedup.mp (mem_sortDesc.mp (h2 i hi))
    · exact mem_sortDesc.mpr (List.mem_dedup.mpr hmem)
  · have hm : today ∈ [today, today - 1, today - 3] := by simp
    have hmax : ∀ d ∈ [today, today - 1, today - 3], d ≤ today := by
      intro d hd
      simp only [List.mem_cons, List.mem_singleton] at hd
      rcases hd with rfl | rfl | hd
      · omega
      · omega
      · simp at hd
        omega
    have heq :=
      (computeStreak_eq_runLen today [today, today - 1, today - 3] today hm hmax).1
        (Or.inl rfl)
    have hh : (sortDesc [today, today - 1, today - 3].dedup).head? = some today :=
      sortDesc_head_max _ today (List.mem_dedup.mpr hm)
        (fun d hd => hmax d (List.mem_dedup.mp hd))
    have hstr := sortDesc_strict [today, today - 1, today - 3].dedup
      (List.nodup_dedup _)
    obtain ⟨h1, h2, h3⟩ := runLen_spec _ hstr today hh
    rw [heq]
    set r := runLen (sortDesc [today, today - 1, today - 3].dedup) with hr
    have ha : ¬ 3 ≤ r := by
      intro hge
      have hmem := List.mem_dedup.mp (mem_sortDesc.mp (h2 2 (by omega)))
      simp only [List.mem_cons, List.mem_singleton, List.not_mem_nil] at hmem
      rcases hmem with h | h | h
      · omega
      · omega
      · simp at h
    have hb : r ≠ 1 := by
      intro h1e
      rw [h1e] at h3
      apply h3
      apply mem_sortDesc.mpr
      apply List.mem_dedup.mpr
      simp
    omega

/-- Witness for C7: the spec's concrete scenario (today, yesterday, three
days ago) yields streak 2, and a most-recent date older than yesterday
yields streak 0. -/
theorem compute_streak_correct_witness :
    computeStreak 100 [100, 100 - 1, 100 - 3] = 2 ∧
    computeStreak 10 [5] = 0 :=
  ⟨(compute_streak_correct 100 [100, 100 - 1, 100 - 3]).2.2.2,
   (compute_streak_correct 10 [5]).2.1 5 (by simp) (by simp) (by decide) (by decide)⟩
